import Mathlib

/-!
Verification of the LUT preset validation module (utils/lut_presets.py).

A preset is a Python dict mapping string keys to values.  The embedding
models a Python value as the inductive type PyVal (integers, floats,
strings, lists, None): the value universe actually manipulated by the
module and its documented inputs.  Python floats are carried as rationals;
the module performs no floating-point arithmetic on them (they are only
tested with isinstance), so this carrier is exact.  A dict is modelled as
a function from keys to Option PyVal (none = key absent); in-place
mutation is modelled by explicit state passing, and an exception by an
Option error component carried next to the state, so that the dict state
at the moment an exception propagates is observable, exactly as it is to
a Python caller.
-/

/-- Python values occurring in presets: int, float, str, list, None. -/
inductive PyVal where
  | int (n : Int)
  | float (q : Rat)
  | str (s : String)
  | list (xs : List PyVal)
  | none

/-- Python comparison v == s against a string literal: equality between
values of different Python types is False, never an error. -/
def pyEqStr (v : PyVal) (s : String) : Bool :=
  match v with
  | PyVal.str t => t == s
  | _ => false

/-- A Python dict with string keys: none means the key is absent. -/
abbrev Preset := String → Option PyVal

/-- Dict update preset[k] = v (in-place assignment, modelled functionally). -/
def setItem (p : Preset) (k : String) (v : PyVal) : Preset :=
  fun q => if q = k then some v else p q

/-- Dict lookup preset[k]; in the engine it is only reached at keys whose
presence was already established, so the fallback value is never produced
on any reachable path. -/
def dictGet (p : Preset) (k : String) : PyVal :=
  (p k).getD PyVal.none

-- Attribute name constants of the source module.
def TYPE : String := "type"
def EXT : String := "extension"
def VERSION : String := "version"
def TITLE : String := "title"
def COMMENT : String := "comment"
def IN_RANGE : String := "input_range"
def OUT_RANGE : String := "output_range"
def OUT_BITDEPTH : String := "output_bitdepth"
def CUBE_SIZE : String := "cube_size"

/-- TYPE_CHOICE: the four admissible values of the type field.  Membership
of a value is tested with Python equality against each element. -/
def TYPE_CHOICE : List String := ["default", "1D", "2D", "3D"]

/-- Python membership v in l for a list of strings. -/
def pyInStrList (v : PyVal) (l : List String) : Bool :=
  l.any (fun s => pyEqStr v s)

/-- BASIC_ATTRS, in source order. -/
def BASIC_ATTRS : List String :=
  [TYPE, EXT, VERSION, TITLE, COMMENT, IN_RANGE, OUT_RANGE]

def BITDEPTH_MAX_VALUE : Int := 128
def BITDEPTH_MIN_VALUE : Int := 8
def CUBE_SIZE_MAX_VALUE : Int := 128
def CUBE_SIZE_MIN_VALUE : Int := 3

/-- get_default_preset: the canonical default preset of the source. -/
def get_default_preset : Preset := fun k =>
  if k = TYPE then some (PyVal.str "default")
  else if k = EXT then some (PyVal.str ".lut")
  else if k = IN_RANGE then some (PyVal.list [PyVal.float 0, PyVal.float 1])
  else if k = OUT_RANGE then some (PyVal.list [PyVal.float 0, PyVal.float 1])
  else if k = OUT_BITDEPTH then some (PyVal.int 12)
  else if k = CUBE_SIZE then some (PyVal.int 17)
  else if k = TITLE then some (PyVal.str "LUT")
  else if k = COMMENT then some (PyVal.str "Generated by ColorPipe-tools")
  else if k = VERSION then some (PyVal.str "1")
  else Option.none

/-- Lookup default_preset[k]; every use is at a key of the default preset. -/
def defaultGet (k : String) : PyVal :=
  dictGet get_default_preset k

/-- Python isinstance(v, collections.Iterable) on this value universe:
strings and lists are iterable, numbers and None are not. -/
def isIterable : PyVal → Bool
  | PyVal.str _ => true
  | PyVal.list _ => true
  | _ => false

/-- Python len(v) for the iterable values of the universe. -/
def pyLen : PyVal → Nat
  | PyVal.str s => s.length
  | PyVal.list xs => xs.length
  | _ => 0

/-- Iteration: elements yielded by `for value in v`.  Iterating a string
yields its one-character strings. -/
def pyElems : PyVal → List PyVal
  | PyVal.str s => s.toList.map (fun c => PyVal.str (String.singleton c))
  | PyVal.list xs => xs
  | _ => []

/-- Python isinstance(v, (int, float)). -/
def isNumber : PyVal → Bool
  | PyVal.int _ => true
  | PyVal.float _ => true
  | _ => false

/-- Embeds the private range helper: true iff the value is an iterable of
length 2 whose elements are all int or float. -/
def is_range (arange : PyVal) : Bool :=
  if !isIterable arange then false
  else if pyLen arange ≠ 2 then false
  else (pyElems arange).all isNumber

/-- PresetException, distinguished in the source by message text; each
constructor corresponds to one distinct format string, carrying the data
interpolated into it. -/
inductive PresetException where
  | missingAttr (attr : String)
  | invalidType (v : PyVal)
  | incompleteDefaultType
  | missingBitdepth
  | invalidBitDepth (v : PyVal)
  | missingCubeSize
  | invalidCubeSize (v : PyVal)
  | invalidRange (v : PyVal)

/-- Validation mode: the source values RAISE_MODE and FILL_MODE. -/
inductive Mode where
  | raiseMode
  | fillMode
deriving DecidableEq

def RAISE_MODE : Mode := Mode.raiseMode
def FILL_MODE : Mode := Mode.fillMode

/-- Engine state: the dict (as mutated so far) together with the pending
exception, if one was raised. -/
abbrev VState := Preset × Option PresetException

/-- Statement sequencing: once an exception is pending, later statements
do not run and the dict stays as it was at the raise. -/
def seqV (s : VState) (f : Preset → VState) : VState :=
  match s.2 with
  | some _ => s
  | Option.none => f s.1

/-- Condition of not isinstance(v, int) or v < BITDEPTH_MIN_VALUE or
v > BITDEPTH_MAX_VALUE, with Python short-circuit: the comparisons are
only reached when v is an int. -/
def badBitdepth : PyVal → Bool
  | PyVal.int n => decide (n < BITDEPTH_MIN_VALUE) || decide (n > BITDEPTH_MAX_VALUE)
  | _ => true

/-- Condition of not isinstance(v, int) or v < CUBE_SIZE_MIN_VALUE or
v > CUBE_SIZE_MAX_VALUE. -/
def badCubeSize : PyVal → Bool
  | PyVal.int n => decide (n < CUBE_SIZE_MIN_VALUE) || decide (n > CUBE_SIZE_MAX_VALUE)
  | _ => true

/-- First engine block: the loop over BASIC_ATTRS filling or raising on
missing basic attributes. -/
def basicAttrsStep (mode : Mode) : List String → Preset → VState
  | [], p => (p, Option.none)
  | attr :: rest, p =>
    if (p attr).isNone then
      match mode with
      | Mode.raiseMode => (p, some (PresetException.missingAttr attr))
      | Mode.fillMode => basicAttrsStep mode rest (setItem p attr (defaultGet attr))
    else basicAttrsStep mode rest p

/-- Second engine block: the type-validity check. -/
def typeStep (mode : Mode) (p : Preset) : VState :=
  if pyInStrList (dictGet p TYPE) TYPE_CHOICE then (p, Option.none)
  else
    match mode with
    | Mode.raiseMode => (p, some (PresetException.invalidType (dictGet p TYPE)))
    | Mode.fillMode => (setItem p TYPE (defaultGet TYPE), Option.none)

/-- Third engine block: default-type completeness. -/
def defaultTypeStep (mode : Mode) (p : Preset) : VState :=
  if pyEqStr (dictGet p TYPE) "default" &&
      ((p OUT_BITDEPTH).isNone || (p CUBE_SIZE).isNone) then
    match mode with
    | Mode.raiseMode => (p, some PresetException.incompleteDefaultType)
    | Mode.fillMode =>
      let p1 := if (p OUT_BITDEPTH).isNone
                then setItem p OUT_BITDEPTH (defaultGet OUT_BITDEPTH) else p
      let p2 := if (p1 CUBE_SIZE).isNone
                then setItem p1 CUBE_SIZE (defaultGet CUBE_SIZE) else p1
      (setItem p2 TYPE (defaultGet TYPE), Option.none)
  else (p, Option.none)

/-- Fourth engine block: 1D/2D output bit depth. -/
def bitdepthStep (mode : Mode) (p : Preset) : VState :=
  if pyEqStr (dictGet p TYPE) "1D" || pyEqStr (dictGet p TYPE) "2D" then
    if (p OUT_BITDEPTH).isNone then
      match mode with
      | Mode.raiseMode => (p, some PresetException.missingBitdepth)
      | Mode.fillMode => (setItem p OUT_BITDEPTH (defaultGet OUT_BITDEPTH), Option.none)
    else if badBitdepth (dictGet p OUT_BITDEPTH) then
      match mode with
      | Mode.raiseMode =>
        (p, some (PresetException.invalidBitDepth (dictGet p OUT_BITDEPTH)))
      | Mode.fillMode => (setItem p OUT_BITDEPTH (defaultGet OUT_BITDEPTH), Option.none)
    else (p, Option.none)
  else (p, Option.none)

/-- Fifth engine block: 3D cube size. -/
def cubeSizeStep (mode : Mode) (p : Preset) : VState :=
  if pyEqStr (dictGet p TYPE) "3D" then
    if (p CUBE_SIZE).isNone then
      match mode with
      | Mode.raiseMode => (p, some PresetException.missingCubeSize)
      | Mode.fillMode => (setItem p CUBE_SIZE (defaultGet CUBE_SIZE), Option.none)
    else if badCubeSize (dictGet p CUBE_SIZE) then
      match mode with
      | Mode.raiseMode =>
        (p, some (PresetException.invalidCubeSize (dictGet p CUBE_SIZE)))
      | Mode.fillMode => (setItem p CUBE_SIZE (defaultGet CUBE_SIZE), Option.none)
    else (p, Option.none)
  else (p, Option.none)

/-- Sixth engine block, one iteration of the loop over
(IN_RANGE, OUT_RANGE): the range-shape check for one attribute. -/
def rangeStep (mode : Mode) (attr : String) (p : Preset) : VState :=
  if is_range (dictGet p attr) then (p, Option.none)
  else
    match mode with
    | Mode.raiseMode => (p, some (PresetException.invalidRange (dictGet p attr)))
    | Mode.fillMode => (setItem p attr (defaultGet attr), Option.none)

/-- Embeds the private validation engine: the six blocks run in source
order, an exception aborting the rest. -/
def validate_preset (preset : Preset) (mode : Mode) : VState :=
  seqV (seqV (seqV (seqV (seqV (seqV
    (basicAttrsStep mode BASIC_ATTRS preset)
    (typeStep mode))
    (defaultTypeStep mode))
    (bitdepthStep mode))
    (cubeSizeStep mode))
    (rangeStep mode IN_RANGE))
    (rangeStep mode OUT_RANGE)

/-- check_preset: the engine in raise mode.  The first component is the
caller's dict after the call, the second the exception if one was raised. -/
def check_preset (preset : Preset) : VState :=
  validate_preset preset RAISE_MODE

/-- complete_preset: the engine in fill mode.  The repaired preset is the
first component (the source repairs the caller's dict in place). -/
def complete_preset (preset : Preset) : VState :=
  validate_preset preset FILL_MODE

/-- KeyError raised by a failed dict lookup. -/
inductive LookupError where
  | keyError (key : String)

/-- is_3d_preset: true iff the type field is default or 3D; the bare
preset[TYPE] lookup raises KeyError when the key is absent. -/
def is_3d_preset (preset : Preset) : Except LookupError Bool :=
  match preset TYPE with
  | Option.none => Except.error (LookupError.keyError TYPE)
  | some t => Except.ok (pyEqStr t "default" || pyEqStr t "3D")

/-- is_1d_or_2d_preset: true iff the type field is default, 1D or 2D; the
bare preset[TYPE] lookup raises KeyError when the key is absent. -/
def is_1d_or_2d_preset (preset : Preset) : Except LookupError Bool :=
  match preset TYPE with
  | Option.none => Except.error (LookupError.keyError TYPE)
  | some t => Except.ok (pyEqStr t "default" || pyEqStr t "1D" || pyEqStr t "2D")

/-- A dict literal built from key-value pairs (first occurrence wins). -/
def mkPreset (l : List (String × PyVal)) : Preset :=
  fun k => (l.find? (fun e => e.1 == k)).map Prod.snd

/-- Rule 1 of the §4.3 order, written from the specification: the first
missing basic field, scanned in the listed order. -/
def specRule1 (p : Preset) : Option PresetException :=
  (BASIC_ATTRS.find? (fun a => (p a).isNone)).map PresetException.missingAttr

/-- Rule 2 of the §4.3 order: type validity. -/
def specRule2 (p : Preset) : Option PresetException :=
  if pyInStrList (dictGet p TYPE) TYPE_CHOICE then Option.none
  else some (PresetException.invalidType (dictGet p TYPE))

/-- Rule 3 of the §4.3 order: default-type completeness. -/
def specRule3 (p : Preset) : Option PresetException :=
  if pyEqStr (dictGet p TYPE) "default" &&
      ((p OUT_BITDEPTH).isNone || (p CUBE_SIZE).isNone) then
    some PresetException.incompleteDefaultType
  else Option.none

/-- Rule 4 of the §4.3 order: 1D/2D bit depth, presence before range. -/
def specRule4 (p : Preset) : Option PresetException :=
  if pyEqStr (dictGet p TYPE) "1D" || pyEqStr (dictGet p TYPE) "2D" then
    if (p OUT_BITDEPTH).isNone then some PresetException.missingBitdepth
    else if badBitdepth (dictGet p OUT_BITDEPTH) then
      some (PresetException.invalidBitDepth (dictGet p OUT_BITDEPTH))
    else Option.none
  else Option.none

/-- Rule 5 of the §4.3 order: 3D cube size, presence before range. -/
def specRule5 (p : Preset) : Option PresetException :=
  if pyEqStr (dictGet p TYPE) "3D" then
    if (p CUBE_SIZE).isNone then some PresetException.missingCubeSize
    else if badCubeSize (dictGet p CUBE_SIZE) then
      some (PresetException.invalidCubeSize (dictGet p CUBE_SIZE))
    else Option.none
  else Option.none

/-- Rule 6 of the §4.3 order, one range field. -/
def specRuleRange (attr : String) (p : Preset) : Option PresetException :=
  if is_range (dictGet p attr) then Option.none
  else some (PresetException.invalidRange (dictGet p attr))

/-- First-of combinator for rule outcomes. -/
def orElseO (a b : Option PresetException) : Option PresetException :=
  match a with
  | some e => some e
  | Option.none => b

/-- Written from the specification (§4.3): the violated rule that comes
earliest in the fixed order, evaluated with no repairs applied, input_range
before output_range. -/
def specFirstViolation (p : Preset) : Option PresetException :=
  orElseO (specRule1 p) (orElseO (specRule2 p) (orElseO (specRule3 p)
    (orElseO (specRule4 p) (orElseO (specRule5 p)
      (orElseO (specRuleRange IN_RANGE p) (specRuleRange OUT_RANGE p))))))

/-- Well-formedness of a preset: the conjunction of the conditions under
which no rule of the engine fires. -/
structure PresetOK (p : Preset) : Prop where
  basics : ∀ a ∈ BASIC_ATTRS, (p a).isSome
  typeOK : pyInStrList (dictGet p TYPE) TYPE_CHOICE = true
  defaultOK : (pyEqStr (dictGet p TYPE) "default" &&
      ((p OUT_BITDEPTH).isNone || (p CUBE_SIZE).isNone)) = false
  bitOK : (pyEqStr (dictGet p TYPE) "1D" || pyEqStr (dictGet p TYPE) "2D") = true →
      (p OUT_BITDEPTH).isNone = false ∧ badBitdepth (dictGet p OUT_BITDEPTH) = false
  cubeOK : pyEqStr (dictGet p TYPE) "3D" = true →
      (p CUBE_SIZE).isNone = false ∧ badCubeSize (dictGet p CUBE_SIZE) = false
  inOK : is_range (dictGet p IN_RANGE) = true
  outOK : is_range (dictGet p OUT_RANGE) = true

-- Fill pipeline stages, named for the proofs below.
def fillBasic (p : Preset) : Preset := (basicAttrsStep FILL_MODE BASIC_ATTRS p).1

def fillType (p : Preset) : Preset := (typeStep FILL_MODE p).1

def fillDefaultType (p : Preset) : Preset := (defaultTypeStep FILL_MODE p).1

def fillBitdepth (p : Preset) : Preset := (bitdepthStep FILL_MODE p).1

def fillCubeSize (p : Preset) : Preset := (cubeSizeStep FILL_MODE p).1

def fillRange (attr : String) (p : Preset) : Preset := (rangeStep FILL_MODE attr p).1

/-- Composition of the six fill-mode stages in engine order. -/
def fillResult (p : Preset) : Preset :=
  fillRange OUT_RANGE (fillRange IN_RANGE
    (fillCubeSize (fillBitdepth (fillDefaultType (fillType (fillBasic p))))))

/-- Written from the specification (§4.2): an ordered length-2 sequence of
numeric elements.  The sequences of this value universe are lists and
strings; a string's elements are its one-character substrings. -/
def specTwoNumericSeq (v : PyVal) : Prop :=
  (∃ xs, v = PyVal.list xs ∧ xs.length = 2 ∧ ∀ x ∈ xs, isNumber x = true) ∨
  (∃ s, v = PyVal.str s ∧ s.length = 2 ∧
    ∀ x ∈ pyElems (PyVal.str s), isNumber x = true)

/-- A well-formed default-type preset whose output_bitdepth (0) and
cube_size (999) lie far outside the documented ranges. -/
def presetC2 : Preset := mkPreset
  [(TYPE, PyVal.str "default"), (EXT, PyVal.str ".lut"),
   (VERSION, PyVal.str "1"), (TITLE, PyVal.str "t"), (COMMENT, PyVal.str "c"),
   (IN_RANGE, PyVal.list [PyVal.int 0, PyVal.int 1]),
   (OUT_RANGE, PyVal.list [PyVal.int 0, PyVal.int 1]),
   (OUT_BITDEPTH, PyVal.int 0), (CUBE_SIZE, PyVal.int 999)]

/-- A well-formed 1D preset. -/
def preset1D : Preset := mkPreset
  [(TYPE, PyVal.str "1D"), (EXT, PyVal.str ".lut"),
   (VERSION, PyVal.str "1"), (TITLE, PyVal.str "t"), (COMMENT, PyVal.str "c"),
   (IN_RANGE, PyVal.list [PyVal.int 0, PyVal.int 1]),
   (OUT_RANGE, PyVal.list [PyVal.int 0, PyVal.int 1]),
   (OUT_BITDEPTH, PyVal.int 16)]

/-- A well-formed 3D preset. -/
def preset3D : Preset := mkPreset
  [(TYPE, PyVal.str "3D"), (EXT, PyVal.str ".lut"),
   (VERSION, PyVal.str "1"), (TITLE, PyVal.str "t"), (COMMENT, PyVal.str "c"),
   (IN_RANGE, PyVal.list [PyVal.int 0, PyVal.int 1]),
   (OUT_RANGE, PyVal.list [PyVal.int 0, PyVal.int 1]),
   (CUBE_SIZE, PyVal.int 32)]

/-- A dict containing no keys. -/
def emptyPreset : Preset := fun _ => Option.none

/-- A dict whose type field holds a value outside the four enum values. -/
def presetBadType : Preset := mkPreset [(TYPE, PyVal.int 7)]

lemma pyEqStr_true_iff (v : PyVal) (s : String) :
    pyEqStr v s = true ↔ v = PyVal.str s := by
  cases v <;> simp [pyEqStr]

lemma setItem_same (p : Preset) (k : String) (v : PyVal) :
    setItem p k v k = some v := by
  simp [setItem]

lemma setItem_other (p : Preset) (k : String) (v : PyVal) (q : String)
    (h : q ≠ k) : setItem p k v q = p q := by
  simp [setItem, h]

lemma dictGet_setItem_same (p : Preset) (k : String) (v : PyVal) :
    dictGet (setItem p k v) k = v := by
  simp [dictGet, setItem]

lemma dictGet_setItem_other (p : Preset) (k : String) (v : PyVal) (q : String)
    (h : q ≠ k) : dictGet (setItem p k v) q = dictGet p q := by
  simp [dictGet, setItem, h]

lemma dictGet_congr (p q : Preset) (k : String) (h : p k = q k) :
    dictGet p k = dictGet q k := by
  simp [dictGet, h]

lemma seqV_ok (p : Preset) (f : Preset → VState) : seqV (p, Option.none) f = f p := rfl

lemma seqV_err (p : Preset) (e : PresetException) (f : Preset → VState) :
    seqV (p, some e) f = (p, some e) := rfl

lemma seqV_pair (p : Preset) (a b : Option PresetException) (f : Preset → VState)
    (hf : f p = (p, b)) : seqV (p, a) f = (p, orElseO a b) := by
  cases a <;> simp [seqV, orElseO, hf]

lemma orElseO_assoc (a b c : Option PresetException) :
    orElseO (orElseO a b) c = orElseO a (orElseO b c) := by
  cases a <;> simp [orElseO]

lemma orElseO_eq_none (a b : Option PresetException) :
    orElseO a b = Option.none ↔ a = Option.none ∧ b = Option.none := by
  cases a <;> simp [orElseO]

lemma basic_raise (l : List String) (p : Preset) :
    basicAttrsStep RAISE_MODE l p =
      (p, (l.find? (fun a => (p a).isNone)).map PresetException.missingAttr) := by
  induction l with
  | nil => rfl
  | cons a rest ih =>
    cases ha : (p a).isNone with
    | true => simp [basicAttrsStep, ha, RAISE_MODE, List.find?_cons_of_pos _ ha]
    | false =>
      simp only [basicAttrsStep, ha, RAISE_MODE] at ih ⊢
      rw [List.find?_cons_of_neg]
      · exact ih
      · simp [ha]

lemma typeStep_raise (p : Preset) : typeStep RAISE_MODE p = (p, specRule2 p) := by
  unfold typeStep specRule2 RAISE_MODE
  split <;> rfl

lemma defaultTypeStep_raise (p : Preset) :
    defaultTypeStep RAISE_MODE p = (p, specRule3 p) := by
  unfold defaultTypeStep specRule3 RAISE_MODE
  split <;> rfl

lemma bitdepthStep_raise (p : Preset) :
    bitdepthStep RAISE_MODE p = (p, specRule4 p) := by
  unfold bitdepthStep specRule4 RAISE_MODE
  split
  · split
    · rfl
    · split <;> rfl
  · rfl

lemma cubeSizeStep_raise (p : Preset) :
    cubeSizeStep RAISE_MODE p = (p, specRule5 p) := by
  unfold cubeSizeStep specRule5 RAISE_MODE
  split
  · split
    · rfl
    · split <;> rfl
  · rfl

lemma rangeStep_raise (attr : String) (p : Preset) :
    rangeStep RAISE_MODE attr p = (p, specRuleRange attr p) := by
  unfold rangeStep specRuleRange RAISE_MODE
  split <;> rfl

/-- Raise mode computes the first violated rule of the §4.3 order, and the
dict is returned exactly as it came in: no repair is applied on any path. -/
lemma validate_raise_eq (p : Preset) :
    validate_preset p RAISE_MODE = (p, specFirstViolation p) := by
  unfold validate_preset
  rw [basic_raise]
  rw [seqV_pair _ _ _ _ (typeStep_raise p)]
  rw [seqV_pair _ _ _ _ (defaultTypeStep_raise p)]
  rw [seqV_pair _ _ _ _ (bitdepthStep_raise p)]
  rw [seqV_pair _ _ _ _ (cubeSizeStep_raise p)]
  rw [seqV_pair _ _ _ _ (rangeStep_raise IN_RANGE p)]
  rw [seqV_pair _ _ _ _ (rangeStep_raise OUT_RANGE p)]
  unfold specFirstViolation specRule1
  simp [orElseO_assoc]

lemma basic_fill_no_err (l : List String) (p : Preset) :
    (basicAttrsStep FILL_MODE l p).2 = Option.none := by
  induction l generalizing p with
  | nil => rfl
  | cons a rest ih =>
    simp only [FILL_MODE] at ih ⊢
    cases ha : (p a).isNone with
    | true => simp [basicAttrsStep, ha, ih]
    | false => simp [basicAttrsStep, ha, ih]

lemma typeStep_fill_no_err (p : Preset) : (typeStep FILL_MODE p).2 = Option.none := by
  unfold typeStep FILL_MODE
  split <;> rfl

lemma defaultTypeStep_fill_no_err (p : Preset) :
    (defaultTypeStep FILL_MODE p).2 = Option.none := by
  unfold defaultTypeStep FILL_MODE
  split <;> rfl

lemma bitdepthStep_fill_no_err (p : Preset) :
    (bitdepthStep FILL_MODE p).2 = Option.none := by
  unfold bitdepthStep FILL_MODE
  split
  · split
    · rfl
    · split <;> rfl
  · rfl

lemma cubeSizeStep_fill_no_err (p : Preset) :
    (cubeSizeStep FILL_MODE p).2 = Option.none := by
  unfold cubeSizeStep FILL_MODE
  split
  · split
    · rfl
    · split <;> rfl
  · rfl

lemma rangeStep_fill_no_err (attr : String) (p : Preset) :
    (rangeStep FILL_MODE attr p).2 = Option.none := by
  unfold rangeStep FILL_MODE
  split <;> rfl

lemma pair_of_no_err (s : VState) (h : s.2 = Option.none) : s = (s.1, Option.none) := by
  cases s with
  | mk a b => simp at h; simp [h]

/-- Fill mode never raises and computes the composition of the six
fill stages. -/
lemma validate_fill_eq (p : Preset) :
    validate_preset p FILL_MODE = (fillResult p, Option.none) := by
  unfold validate_preset
  rw [pair_of_no_err _ (basic_fill_no_err BASIC_ATTRS p), seqV_ok]
  rw [pair_of_no_err _ (typeStep_fill_no_err _), seqV_ok]
  rw [pair_of_no_err _ (defaultTypeStep_fill_no_err _), seqV_ok]
  rw [pair_of_no_err _ (bitdepthStep_fill_no_err _), seqV_ok]
  rw [pair_of_no_err _ (cubeSizeStep_fill_no_err _), seqV_ok]
  rw [pair_of_no_err _ (rangeStep_fill_no_err IN_RANGE _), seqV_ok]
  rw [pair_of_no_err _ (rangeStep_fill_no_err OUT_RANGE _)]
  rfl

lemma isSome_of_isNone_false {o : Option PyVal} (h : o.isNone = false) :
    o.isSome = true := by
  cases o <;> simp_all

lemma setItem_isSome (p : Preset) (k : String) (v : PyVal) (q : String)
    (h : (p q).isSome = true) : ((setItem p k v) q).isSome = true := by
  by_cases hq : q = k
  · subst hq; rw [setItem_same]; rfl
  · rw [setItem_other _ _ _ _ hq]; exact h

lemma basic_fill_get_present (l : List String) (p : Preset) (k : String)
    (h : (p k).isSome = true) :
    (basicAttrsStep Mode.fillMode l p).1 k = p k := by
  induction l generalizing p with
  | nil => rfl
  | cons a rest ih =>
    cases ha : (p a).isNone with
    | true =>
      have hka : k ≠ a := by
        intro he; subst he
        rw [Option.isNone_iff_eq_none] at ha
        rw [ha] at h
        simp at h
      simp only [basicAttrsStep, ha, if_pos]
      rw [ih (setItem p a (defaultGet a)) (by rw [setItem_other _ _ _ _ hka]; exact h)]
      exact setItem_other _ _ _ _ hka
    | false =>
      simp only [basicAttrsStep, ha, Bool.false_eq_true, if_false]
      exact ih p h

lemma basic_fill_mono (l : List String) (p : Preset) (k : String)
    (h : (p k).isSome = true) :
    ((basicAttrsStep Mode.fillMode l p).1 k).isSome = true := by
  rw [basic_fill_get_present l p k h]; exact h

lemma basic_fill_present (l : List String) (p : Preset) (a : String) :
    a ∈ l → ((basicAttrsStep Mode.fillMode l p).1 a).isSome = true := by
  induction l generalizing p with
  | nil => intro ha; cases ha
  | cons b rest ih =>
    intro ha
    cases hb : (p b).isNone with
    | true =>
      simp only [basicAttrsStep, hb, if_pos]
      by_cases hab : a = b
      · subst hab
        exact basic_fill_mono rest _ a (by rw [setItem_same]; rfl)
      · have har : a ∈ rest := by
          rcases List.mem_cons.mp ha with h | h
          · exact absurd h hab
          · exact h
        exact ih _ har
    | false =>
      simp only [basicAttrsStep, hb, Bool.false_eq_true, if_false]
      by_cases hab : a = b
      · subst hab
        exact basic_fill_mono rest p a (isSome_of_isNone_false hb)
      · have har : a ∈ rest := by
          rcases List.mem_cons.mp ha with h | h
          · exact absurd h hab
          · exact h
        exact ih p har

lemma basic_fill_frame (l : List String) (p : Preset) (k : String) :
    k ∉ l → (basicAttrsStep Mode.fillMode l p).1 k = p k := by
  induction l generalizing p with
  | nil => intro _; rfl
  | cons a rest ih =>
    intro hk
    have hka : k ≠ a := fun he => hk (he ▸ List.mem_cons_self a rest)
    have hkr : k ∉ rest := fun h => hk (List.mem_cons_of_mem a h)
    cases ha : (p a).isNone with
    | true =>
      simp only [basicAttrsStep, ha, if_pos]
      rw [ih _ hkr]
      exact setItem_other _ _ _ _ hka
    | false =>
      simp only [basicAttrsStep, ha, Bool.false_eq_true, if_false]
      exact ih p hkr

lemma fillType_frame (p : Preset) (k : String) (h : k ≠ TYPE) :
    fillType p k = p k := by
  unfold fillType typeStep FILL_MODE
  split
  · rfl
  · exact setItem_other _ _ _ _ h

lemma fillType_mono (p : Preset) (k : String) (h : (p k).isSome = true) :
    ((fillType p) k).isSome = true := by
  unfold fillType typeStep FILL_MODE
  split
  · exact h
  · exact setItem_isSome _ _ _ _ h

lemma fillType_mem (p : Preset) :
    pyInStrList (dictGet (fillType p) TYPE) TYPE_CHOICE = true := by
  unfold fillType typeStep FILL_MODE
  split
  · next h => exact h
  · rw [dictGet_setItem_same]; decide

lemma fillType_id (p : Preset)
    (h : pyInStrList (dictGet p TYPE) TYPE_CHOICE = true) : fillType p = p := by
  unfold fillType typeStep FILL_MODE
  rw [if_pos h]

lemma fillDefaultType_skip (p : Preset)
    (h : (pyEqStr (dictGet p TYPE) "default" &&
      ((p OUT_BITDEPTH).isNone || (p CUBE_SIZE).isNone)) = false) :
    fillDefaultType p = p := by
  unfold fillDefaultType defaultTypeStep FILL_MODE
  rw [if_neg (by simp [h])]


lemma bit_ne_type : OUT_BITDEPTH ≠ TYPE := by decide

lemma cube_ne_type : CUBE_SIZE ≠ TYPE := by decide

lemma bit_ne_cube : OUT_BITDEPTH ≠ CUBE_SIZE := by decide

lemma cube_ne_bit : CUBE_SIZE ≠ OUT_BITDEPTH := by decide

lemma fillDefaultType_frame (p : Preset) (k : String) (h1 : k ≠ TYPE)
    (h2 : k ≠ OUT_BITDEPTH) (h3 : k ≠ CUBE_SIZE) :
    fillDefaultType p k = p k := by
  unfold fillDefaultType defaultTypeStep FILL_MODE
  split
  · dsimp only
    split <;> split <;> simp [setItem, h1, h2, h3]
  · rfl

lemma fillDefaultType_mono (p : Preset) (k : String) (h : (p k).isSome = true) :
    ((fillDefaultType p) k).isSome = true := by
  unfold fillDefaultType defaultTypeStep FILL_MODE
  split
  · dsimp only
    split <;> split <;> (repeat' apply setItem_isSome) <;> exact h
  · exact h

lemma fillDefaultType_type (p : Preset) :
    dictGet (fillDefaultType p) TYPE = dictGet p TYPE := by
  unfold fillDefaultType defaultTypeStep FILL_MODE
  split
  · next h =>
    have hd : pyEqStr (dictGet p TYPE) "default" = true := by
      simp only [Bool.and_eq_true] at h
      exact h.1
    dsimp only
    rw [(pyEqStr_true_iff _ _).mp hd, dictGet_setItem_same]
    rfl
  · rfl

lemma fillDefaultType_defaultOK (p : Preset)
    (hd : pyEqStr (dictGet p TYPE) "default" = true) :
    ((fillDefaultType p) OUT_BITDEPTH).isSome = true ∧
    ((fillDefaultType p) CUBE_SIZE).isSome = true := by
  unfold fillDefaultType defaultTypeStep FILL_MODE
  split
  · dsimp only
    constructor
    · split <;> split <;>
        simp_all [setItem, bit_ne_type, bit_ne_cube, cube_ne_type, cube_ne_bit,
          Option.isSome_iff_ne_none]
    · split <;> split <;>
        simp_all [setItem, bit_ne_type, bit_ne_cube, cube_ne_type, cube_ne_bit,
          Option.isSome_iff_ne_none]
  · next hcond =>
    rw [hd] at hcond
    simp only [Bool.true_and, Bool.not_eq_true, Bool.or_eq_false_iff] at hcond
    exact ⟨isSome_of_isNone_false hcond.1, isSome_of_isNone_false hcond.2⟩

lemma isNone_eq_false_of_isSome {o : Option PyVal} (h : o.isSome = true) :
    o.isNone = false := by
  cases o <;> simp_all

lemma fillBitdepth_frame (p : Preset) (k : String) (h : k ≠ OUT_BITDEPTH) :
    fillBitdepth p k = p k := by
  unfold fillBitdepth bitdepthStep FILL_MODE
  split
  · split
    · exact setItem_other _ _ _ _ h
    · split
      · exact setItem_other _ _ _ _ h
      · rfl
  · rfl

lemma fillBitdepth_mono (p : Preset) (k : String) (h : (p k).isSome = true) :
    ((fillBitdepth p) k).isSome = true := by
  unfold fillBitdepth bitdepthStep FILL_MODE
  split
  · split
    · exact setItem_isSome _ _ _ _ h
    · split
      · exact setItem_isSome _ _ _ _ h
      · exact h
  · exact h

lemma fillBitdepth_bitOK (p : Preset)
    (hT : (pyEqStr (dictGet p TYPE) "1D" || pyEqStr (dictGet p TYPE) "2D") = true) :
    ((fillBitdepth p) OUT_BITDEPTH).isNone = false ∧
    badBitdepth (dictGet (fillBitdepth p) OUT_BITDEPTH) = false := by
  unfold fillBitdepth bitdepthStep FILL_MODE
  rw [if_pos hT]
  split
  · dsimp only
    constructor
    · rw [setItem_same]; rfl
    · rw [dictGet_setItem_same]; decide
  · split
    · dsimp only
      constructor
      · rw [setItem_same]; rfl
      · rw [dictGet_setItem_same]; decide
    · next h2 h3 =>
      constructor
      · exact Bool.eq_false_iff.mpr h2
      · exact Bool.eq_false_iff.mpr h3

lemma fillBitdepth_skip (p : Preset)
    (h : (pyEqStr (dictGet p TYPE) "1D" || pyEqStr (dictGet p TYPE) "2D") = false) :
    fillBitdepth p = p := by
  unfold fillBitdepth bitdepthStep FILL_MODE
  rw [if_neg (by simp [h])]

lemma fillCubeSize_frame (p : Preset) (k : String) (h : k ≠ CUBE_SIZE) :
    fillCubeSize p k = p k := by
  unfold fillCubeSize cubeSizeStep FILL_MODE
  split
  · split
    · exact setItem_other _ _ _ _ h
    · split
      · exact setItem_other _ _ _ _ h
      · rfl
  · rfl

lemma fillCubeSize_mono (p : Preset) (k : String) (h : (p k).isSome = true) :
    ((fillCubeSize p) k).isSome = true := by
  unfold fillCubeSize cubeSizeStep FILL_MODE
  split
  · split
    · exact setItem_isSome _ _ _ _ h
    · split
      · exact setItem_isSome _ _ _ _ h
      · exact h
  · exact h

lemma fillCubeSize_cubeOK (p : Preset)
    (hT : pyEqStr (dictGet p TYPE) "3D" = true) :
    ((fillCubeSize p) CUBE_SIZE).isNone = false ∧
    badCubeSize (dictGet (fillCubeSize p) CUBE_SIZE) = false := by
  unfold fillCubeSize cubeSizeStep FILL_MODE
  rw [if_pos hT]
  split
  · dsimp only
    constructor
    · rw [setItem_same]; rfl
    · rw [dictGet_setItem_same]; decide
  · split
    · dsimp only
      constructor
      · rw [setItem_same]; rfl
      · rw [dictGet_setItem_same]; decide
    · next h2 h3 =>
      constructor
      · exact Bool.eq_false_iff.mpr h2
      · exact Bool.eq_false_iff.mpr h3

lemma fillCubeSize_skip (p : Preset)
    (h : pyEqStr (dictGet p TYPE) "3D" = false) :
    fillCubeSize p = p := by
  unfold fillCubeSize cubeSizeStep FILL_MODE
  rw [if_neg (by simp [h])]

lemma fillRange_frame (attr : String) (p : Preset) (k : String) (h : k ≠ attr) :
    fillRange attr p k = p k := by
  unfold fillRange rangeStep FILL_MODE
  split
  · rfl
  · exact setItem_other _ _ _ _ h

lemma fillRange_mono (attr : String) (p : Preset) (k : String)
    (h : (p k).isSome = true) : ((fillRange attr p) k).isSome = true := by
  unfold fillRange rangeStep FILL_MODE
  split
  · exact h
  · exact setItem_isSome _ _ _ _ h

lemma fillRange_ok (attr : String) (p : Preset)
    (hd : is_range (defaultGet attr) = true) :
    is_range (dictGet (fillRange attr p) attr) = true := by
  unfold fillRange rangeStep FILL_MODE
  split
  · next h => exact h
  · rw [dictGet_setItem_same]; exact hd

lemma fillRange_id (attr : String) (p : Preset)
    (h : is_range (dictGet p attr) = true) : fillRange attr p = p := by
  unfold fillRange rangeStep FILL_MODE
  rw [if_pos h]

lemma basic_all_present (mode : Mode) (l : List String) (p : Preset)
    (h : ∀ a ∈ l, (p a).isSome = true) :
    basicAttrsStep mode l p = (p, Option.none) := by
  induction l with
  | nil => rfl
  | cons a rest ih =>
    have ha : (p a).isNone = false :=
      isNone_eq_false_of_isSome (h a (List.mem_cons_self a rest))
    simp only [basicAttrsStep, ha, Bool.false_eq_true, if_false]
    exact ih (fun b hb => h b (List.mem_cons_of_mem a hb))

/-- A preset on which no rule fires passes through the engine unchanged in
both modes, with no exception. -/
lemma validate_of_ok (p : Preset) (h : PresetOK p) (mode : Mode) :
    validate_preset p mode = (p, Option.none) := by
  unfold validate_preset
  rw [basic_all_present mode BASIC_ATTRS p h.basics, seqV_ok]
  rw [show typeStep mode p = (p, Option.none) from by
    unfold typeStep; rw [if_pos h.typeOK]]
  rw [seqV_ok]
  rw [show defaultTypeStep mode p = (p, Option.none) from by
    unfold defaultTypeStep; rw [if_neg (by simp [h.defaultOK])]]
  rw [seqV_ok]
  rw [show bitdepthStep mode p = (p, Option.none) from by
    unfold bitdepthStep
    cases hT : (pyEqStr (dictGet p TYPE) "1D" || pyEqStr (dictGet p TYPE) "2D") with
    | false => rw [if_neg (by simp)]
    | true =>
      obtain ⟨h1, h2⟩ := h.bitOK hT
      rw [if_pos rfl, if_neg (by simp [h1]), if_neg (by simp [h2])]]
  rw [seqV_ok]
  rw [show cubeSizeStep mode p = (p, Option.none) from by
    unfold cubeSizeStep
    cases hT : pyEqStr (dictGet p TYPE) "3D" with
    | false => rw [if_neg (by simp)]
    | true =>
      obtain ⟨h1, h2⟩ := h.cubeOK hT
      rw [if_pos rfl, if_neg (by simp [h1]), if_neg (by simp [h2])]]
  rw [seqV_ok]
  rw [show rangeStep mode IN_RANGE p = (p, Option.none) from by
    unfold rangeStep; rw [if_pos h.inOK]]
  rw [seqV_ok]
  rw [show rangeStep mode OUT_RANGE p = (p, Option.none) from by
    unfold rangeStep; rw [if_pos h.outOK]]

/-- The output of the fill pipeline satisfies every rule of the engine. -/
lemma fillResult_ok (p : Preset) : PresetOK (fillResult p) := by
  unfold fillResult
  set q1 := fillBasic p with hq1
  set q2 := fillType q1 with hq2
  set q3 := fillDefaultType q2 with hq3
  set q4 := fillBitdepth q3 with hq4
  set q5 := fillCubeSize q4 with hq5
  set q6 := fillRange IN_RANGE q5 with hq6
  have ht32 : dictGet q3 TYPE = dictGet q2 TYPE := by
    rw [hq3]; exact fillDefaultType_type q2
  have ht43 : dictGet q4 TYPE = dictGet q3 TYPE := by
    rw [hq4]; exact dictGet_congr _ _ _ (fillBitdepth_frame q3 TYPE (by decide))
  have ht54 : dictGet q5 TYPE = dictGet q4 TYPE := by
    rw [hq5]; exact dictGet_congr _ _ _ (fillCubeSize_frame q4 TYPE (by decide))
  have ht65 : dictGet q6 TYPE = dictGet q5 TYPE := by
    rw [hq6]; exact dictGet_congr _ _ _ (fillRange_frame IN_RANGE q5 TYPE (by decide))
  have ht76 : dictGet (fillRange OUT_RANGE q6) TYPE = dictGet q6 TYPE :=
    dictGet_congr _ _ _ (fillRange_frame OUT_RANGE q6 TYPE (by decide))
  have ht72 : dictGet (fillRange OUT_RANGE q6) TYPE = dictGet q2 TYPE := by
    rw [ht76, ht65, ht54, ht43, ht32]
  refine ⟨?_, ?_, ?_, ?_, ?_, ?_, ?_⟩
  · intro a ha
    have h1 : (q1 a).isSome = true := by
      rw [hq1]; exact basic_fill_present BASIC_ATTRS p a ha
    exact fillRange_mono OUT_RANGE q6 a (by
      rw [hq6]; exact fillRange_mono IN_RANGE q5 a (by
        rw [hq5]; exact fillCubeSize_mono q4 a (by
          rw [hq4]; exact fillBitdepth_mono q3 a (by
            rw [hq3]; exact fillDefaultType_mono q2 a (by
              rw [hq2]; exact fillType_mono q1 a h1)))))
  · rw [ht72, hq2]
    exact fillType_mem q1
  · cases hd : pyEqStr (dictGet (fillRange OUT_RANGE q6) TYPE) "default" with
    | false => simp [hd]
    | true =>
      have hd2 : pyEqStr (dictGet q2 TYPE) "default" = true := by
        rw [← ht72]; exact hd
      have hbc : (q3 OUT_BITDEPTH).isSome = true ∧ (q3 CUBE_SIZE).isSome = true := by
        rw [hq3]; exact fillDefaultType_defaultOK q2 hd2
      have hb7 : ((fillRange OUT_RANGE q6) OUT_BITDEPTH).isSome = true :=
        fillRange_mono OUT_RANGE q6 _ (by
          rw [hq6]; exact fillRange_mono IN_RANGE q5 _ (by
            rw [hq5]; exact fillCubeSize_mono q4 _ (by
              rw [hq4]; exact fillBitdepth_mono q3 _ hbc.1)))
      have hc7 : ((fillRange OUT_RANGE q6) CUBE_SIZE).isSome = true :=
        fillRange_mono OUT_RANGE q6 _ (by
          rw [hq6]; exact fillRange_mono IN_RANGE q5 _ (by
            rw [hq5]; exact fillCubeSize_mono q4 _ (by
              rw [hq4]; exact fillBitdepth_mono q3 _ hbc.2)))
      rw [isNone_eq_false_of_isSome hb7, isNone_eq_false_of_isSome hc7]
      rfl
  · intro hT
    rw [ht76, ht65, ht54, ht43] at hT
    have hbit : ((fillBitdepth q3) OUT_BITDEPTH).isNone = false ∧
        badBitdepth (dictGet (fillBitdepth q3) OUT_BITDEPTH) = false :=
      fillBitdepth_bitOK q3 hT
    rw [← hq4] at hbit
    have he : (fillRange OUT_RANGE q6) OUT_BITDEPTH = q4 OUT_BITDEPTH := by
      rw [fillRange_frame OUT_RANGE q6 OUT_BITDEPTH (by decide), hq6,
        fillRange_frame IN_RANGE q5 OUT_BITDEPTH (by decide), hq5,
        fillCubeSize_frame q4 OUT_BITDEPTH (by decide)]
    constructor
    · rw [he]; exact hbit.1
    · rw [dictGet_congr _ _ _ he]; exact hbit.2
  · intro hT
    rw [ht76, ht65, ht54] at hT
    have hcube : ((fillCubeSize q4) CUBE_SIZE).isNone = false ∧
        badCubeSize (dictGet (fillCubeSize q4) CUBE_SIZE) = false :=
      fillCubeSize_cubeOK q4 hT
    rw [← hq5] at hcube
    have he : (fillRange OUT_RANGE q6) CUBE_SIZE = q5 CUBE_SIZE := by
      rw [fillRange_frame OUT_RANGE q6 CUBE_SIZE (by decide), hq6,
        fillRange_frame IN_RANGE q5 CUBE_SIZE (by decide)]
    constructor
    · rw [he]; exact hcube.1
    · rw [dictGet_congr _ _ _ he]; exact hcube.2
  · have h6 : is_range (dictGet q6 IN_RANGE) = true := by
      rw [hq6]; exact fillRange_ok IN_RANGE q5 (by decide)
    rw [dictGet_congr _ _ _ (fillRange_frame OUT_RANGE q6 IN_RANGE (by decide))]
    exact h6
  · exact fillRange_ok OUT_RANGE q6 (by decide)

/-- The dict produced by a fill-mode run satisfies every rule. -/
lemma complete_ok (p : Preset) : PresetOK ((complete_preset p).1) := by
  unfold complete_preset
  rw [validate_fill_eq]
  exact fillResult_ok p

lemma scan_none_default_facts (p : Preset)
    (hscan : specFirstViolation p = Option.none)
    (hd : pyEqStr (dictGet p TYPE) "default" = true) :
    (p OUT_BITDEPTH).isSome = true ∧ (p CUBE_SIZE).isSome = true := by
  unfold specFirstViolation at hscan
  simp only [orElseO_eq_none] at hscan
  have h3 := hscan.2.2.1
  unfold specRule3 at h3
  by_cases hc : (pyEqStr (dictGet p TYPE) "default" &&
      ((p OUT_BITDEPTH).isNone || (p CUBE_SIZE).isNone)) = true
  · rw [if_pos hc] at h3
    cases h3
  · have hcf := Bool.eq_false_iff.mpr hc
    rw [hd, Bool.true_and, Bool.or_eq_false_iff] at hcf
    exact ⟨isSome_of_isNone_false hcf.1, isSome_of_isNone_false hcf.2⟩

lemma ok_default_both (p : Preset) (h : PresetOK p)
    (hd : dictGet p TYPE = PyVal.str "default") :
    (p OUT_BITDEPTH).isSome = true ∧ (p CUBE_SIZE).isSome = true := by
  have hx := h.defaultOK
  rw [hd, show pyEqStr (PyVal.str "default") "default" = true from by decide,
    Bool.true_and, Bool.or_eq_false_iff] at hx
  exact ⟨isSome_of_isNone_false hx.1, isSome_of_isNone_false hx.2⟩

lemma validate_mono (p : Preset) (mode : Mode) (k : String)
    (h : (p k).isSome = true) :
    ((validate_preset p mode).1 k).isSome = true := by
  cases mode with
  | raiseMode =>
    show ((validate_preset p RAISE_MODE).1 k).isSome = true
    rw [validate_raise_eq]
    exact h
  | fillMode =>
    show ((validate_preset p FILL_MODE).1 k).isSome = true
    rw [validate_fill_eq]
    unfold fillResult
    exact fillRange_mono _ _ _ (fillRange_mono _ _ _ (fillCubeSize_mono _ _
      (fillBitdepth_mono _ _ (fillDefaultType_mono _ _ (fillType_mono _ _
        (basic_fill_mono _ _ _ h))))))

lemma find_isNone_setItem (l : List String) (p : Preset) (k : String) (v : PyVal) :
    k ∉ l →
    l.find? (fun a => ((setItem p k v) a).isNone) =
      l.find? (fun a => (p a).isNone) := by
  induction l with
  | nil => intro _; rfl
  | cons a rest ih =>
    intro hk
    have hak : a ≠ k := by
      rintro rfl
      exact hk (List.mem_cons_self a rest)
    have hsa : ((setItem p k v) a).isNone = (p a).isNone := by
      rw [setItem_other _ _ _ _ hak]
    cases hpa : (p a).isNone with
    | true =>
      have hsat : ((setItem p k v) a).isNone = true := by rw [hsa]; exact hpa
      simp only [List.find?]
      rw [hsat, hpa]
    | false =>
      have hsaf : ((setItem p k v) a).isNone = false := by rw [hsa]; exact hpa
      simp only [List.find?]
      rw [hsaf, hpa]
      exact ih (fun h => hk (List.mem_cons_of_mem a h))

lemma specRule1_setItem (p : Preset) (k : String) (v : PyVal)
    (hk : k ∉ BASIC_ATTRS) : specRule1 (setItem p k v) = specRule1 p := by
  unfold specRule1
  rw [find_isNone_setItem BASIC_ATTRS p k v hk]

lemma specRule2_setItem (p : Preset) (k : String) (v : PyVal) (hk : TYPE ≠ k) :
    specRule2 (setItem p k v) = specRule2 p := by
  unfold specRule2
  rw [dictGet_setItem_other _ _ _ _ hk]

lemma specRule3_not_default (p : Preset)
    (h : pyEqStr (dictGet p TYPE) "default" = false) :
    specRule3 p = Option.none := by
  unfold specRule3
  rw [if_neg (by simp [h])]

lemma specRule4_setItem (p : Preset) (k : String) (v : PyVal) (h1 : TYPE ≠ k)
    (h2 : OUT_BITDEPTH ≠ k) : specRule4 (setItem p k v) = specRule4 p := by
  unfold specRule4
  rw [dictGet_setItem_other _ _ _ _ h1, setItem_other _ _ _ _ h2,
    dictGet_setItem_other _ _ _ _ h2]

lemma specRule4_not_1d2d (p : Preset)
    (h : (pyEqStr (dictGet p TYPE) "1D" || pyEqStr (dictGet p TYPE) "2D") = false) :
    specRule4 p = Option.none := by
  unfold specRule4
  rw [if_neg (by simp [h])]

lemma specRule5_setItem (p : Preset) (k : String) (v : PyVal) (h1 : TYPE ≠ k)
    (h2 : CUBE_SIZE ≠ k) : specRule5 (setItem p k v) = specRule5 p := by
  unfold specRule5
  rw [dictGet_setItem_other _ _ _ _ h1, setItem_other _ _ _ _ h2,
    dictGet_setItem_other _ _ _ _ h2]

lemma specRule5_not_3d (p : Preset)
    (h : pyEqStr (dictGet p TYPE) "3D" = false) :
    specRule5 p = Option.none := by
  unfold specRule5
  rw [if_neg (by simp [h])]

lemma specRuleRange_setItem (attr : String) (p : Preset) (k : String) (v : PyVal)
    (hk : attr ≠ k) : specRuleRange attr (setItem p k v) = specRuleRange attr p := by
  unfold specRuleRange
  rw [dictGet_setItem_other _ _ _ _ hk]

lemma dictGet_type_of_eq (p : Preset) (t : PyVal) (h : p TYPE = some t) :
    dictGet p TYPE = t := by
  simp [dictGet, h]

/-- With a 1D or 2D type, the first-violation scan never reads cube_size,
so overwriting it changes nothing. -/
lemma scan_setItem_cube (p : Preset) (v : PyVal)
    (hp : p TYPE = some (PyVal.str "1D") ∨ p TYPE = some (PyVal.str "2D")) :
    specFirstViolation (setItem p CUBE_SIZE v) = specFirstViolation p := by
  have hT1 : dictGet p TYPE = PyVal.str "1D" ∨ dictGet p TYPE = PyVal.str "2D" := by
    rcases hp with h | h
    · exact Or.inl (dictGet_type_of_eq p _ h)
    · exact Or.inr (dictGet_type_of_eq p _ h)
  have hTs : dictGet (setItem p CUBE_SIZE v) TYPE = dictGet p TYPE :=
    dictGet_setItem_other _ _ _ _ (by decide)
  have hd : pyEqStr (dictGet p TYPE) "default" = false := by
    rcases hT1 with h | h <;> rw [h] <;> decide
  have h3d : pyEqStr (dictGet p TYPE) "3D" = false := by
    rcases hT1 with h | h <;> rw [h] <;> decide
  unfold specFirstViolation
  rw [specRule1_setItem p CUBE_SIZE v (by decide)]
  rw [specRule2_setItem p CUBE_SIZE v (by decide)]
  rw [specRule3_not_default (setItem p CUBE_SIZE v) (by rw [hTs]; exact hd),
    specRule3_not_default p hd]
  rw [specRule4_setItem p CUBE_SIZE v (by decide) (by decide)]
  rw [specRule5_not_3d (setItem p CUBE_SIZE v) (by rw [hTs]; exact h3d),
    specRule5_not_3d p h3d]
  rw [specRuleRange_setItem IN_RANGE p CUBE_SIZE v (by decide)]
  rw [specRuleRange_setItem OUT_RANGE p CUBE_SIZE v (by decide)]

/-- With a 3D type, the first-violation scan never reads output_bitdepth. -/
lemma scan_setItem_bit (p : Preset) (v : PyVal)
    (hp : p TYPE = some (PyVal.str "3D")) :
    specFirstViolation (setItem p OUT_BITDEPTH v) = specFirstViolation p := by
  have hT1 : dictGet p TYPE = PyVal.str "3D" := dictGet_type_of_eq p _ hp
  have hTs : dictGet (setItem p OUT_BITDEPTH v) TYPE = dictGet p TYPE :=
    dictGet_setItem_other _ _ _ _ (by decide)
  have hd : pyEqStr (dictGet p TYPE) "default" = false := by rw [hT1]; decide
  have h12 : (pyEqStr (dictGet p TYPE) "1D" || pyEqStr (dictGet p TYPE) "2D") = false := by
    rw [hT1]; decide
  unfold specFirstViolation
  rw [specRule1_setItem p OUT_BITDEPTH v (by decide)]
  rw [specRule2_setItem p OUT_BITDEPTH v (by decide)]
  rw [specRule3_not_default (setItem p OUT_BITDEPTH v) (by rw [hTs]; exact hd),
    specRule3_not_default p hd]
  rw [specRule4_not_1d2d (setItem p OUT_BITDEPTH v) (by rw [hTs]; exact h12),
    specRule4_not_1d2d p h12]
  rw [specRule5_setItem p OUT_BITDEPTH v (by decide) (by decide)]
  rw [specRuleRange_setItem IN_RANGE p OUT_BITDEPTH v (by decide)]
  rw [specRuleRange_setItem OUT_RANGE p OUT_BITDEPTH v (by decide)]

/-- For a 1D/2D preset the fill pipeline leaves cube_size exactly as
given. -/
lemma fill_cube_preserved (p : Preset) (v : PyVal)
    (hp : p TYPE = some (PyVal.str "1D") ∨ p TYPE = some (PyVal.str "2D")) :
    fillResult (setItem p CUBE_SIZE v) CUBE_SIZE = some v := by
  have hPT : (setItem p CUBE_SIZE v) TYPE = p TYPE :=
    setItem_other _ _ _ _ (by decide)
  have hsome : ((setItem p CUBE_SIZE v) TYPE).isSome = true := by
    rw [hPT]; rcases hp with h | h <;> rw [h] <;> rfl
  have h1T : fillBasic (setItem p CUBE_SIZE v) TYPE = p TYPE := by
    unfold fillBasic
    simp only [FILL_MODE]
    rw [basic_fill_get_present BASIC_ATTRS _ TYPE hsome]
    exact hPT
  have h1C : fillBasic (setItem p CUBE_SIZE v) CUBE_SIZE = some v := by
    unfold fillBasic
    simp only [FILL_MODE]
    rw [basic_fill_get_present BASIC_ATTRS _ CUBE_SIZE
      (by rw [setItem_same]; rfl)]
    exact setItem_same _ _ _
  have hdT : dictGet (fillBasic (setItem p CUBE_SIZE v)) TYPE = PyVal.str "1D" ∨
      dictGet (fillBasic (setItem p CUBE_SIZE v)) TYPE = PyVal.str "2D" := by
    rcases hp with h | h
    · exact Or.inl (by rw [dictGet, h1T, h]; rfl)
    · exact Or.inr (by rw [dictGet, h1T, h]; rfl)
  have hmem : pyInStrList (dictGet (fillBasic (setItem p CUBE_SIZE v)) TYPE)
      TYPE_CHOICE = true := by
    rcases hdT with h | h <;> rw [h] <;> decide
  have hdflt : pyEqStr (dictGet (fillBasic (setItem p CUBE_SIZE v)) TYPE)
      "default" = false := by
    rcases hdT with h | h <;> rw [h] <;> decide
  unfold fillResult
  rw [fillType_id _ hmem]
  rw [fillDefaultType_skip _ (by rw [hdflt]; rfl)]
  rw [fillRange_frame OUT_RANGE _ CUBE_SIZE (by decide)]
  rw [fillRange_frame IN_RANGE _ CUBE_SIZE (by decide)]
  have hbT : dictGet (fillBitdepth (fillBasic (setItem p CUBE_SIZE v))) TYPE =
      dictGet (fillBasic (setItem p CUBE_SIZE v)) TYPE :=
    dictGet_congr _ _ _ (fillBitdepth_frame _ TYPE (by decide))
  have h3d : pyEqStr (dictGet (fillBitdepth (fillBasic (setItem p CUBE_SIZE v)))
      TYPE) "3D" = false := by
    rw [hbT]; rcases hdT with h | h <;> rw [h] <;> decide
  rw [fillCubeSize_skip _ h3d]
  rw [fillBitdepth_frame _ CUBE_SIZE (by decide)]
  exact h1C

/-- For a 3D preset the fill pipeline leaves output_bitdepth exactly as
given. -/
lemma fill_bit_preserved (p : Preset) (v : PyVal)
    (hp : p TYPE = some (PyVal.str "3D")) :
    fillResult (setItem p OUT_BITDEPTH v) OUT_BITDEPTH = some v := by
  have hPT : (setItem p OUT_BITDEPTH v) TYPE = p TYPE :=
    setItem_other _ _ _ _ (by decide)
  have hsome : ((setItem p OUT_BITDEPTH v) TYPE).isSome = true := by
    rw [hPT, hp]; rfl
  have h1T : fillBasic (setItem p OUT_BITDEPTH v) TYPE = p TYPE := by
    unfold fillBasic
    simp only [FILL_MODE]
    rw [basic_fill_get_present BASIC_ATTRS _ TYPE hsome]
    exact hPT
  have h1B : fillBasic (setItem p OUT_BITDEPTH v) OUT_BITDEPTH = some v := by
    unfold fillBasic
    simp only [FILL_MODE]
    rw [basic_fill_get_present BASIC_ATTRS _ OUT_BITDEPTH
      (by rw [setItem_same]; rfl)]
    exact setItem_same _ _ _
  have hdT : dictGet (fillBasic (setItem p OUT_BITDEPTH v)) TYPE =
      PyVal.str "3D" := by
    rw [dictGet, h1T, hp]; rfl
  have hmem : pyInStrList (dictGet (fillBasic (setItem p OUT_BITDEPTH v)) TYPE)
      TYPE_CHOICE = true := by
    rw [hdT]; decide
  have hdflt : pyEqStr (dictGet (fillBasic (setItem p OUT_BITDEPTH v)) TYPE)
      "default" = false := by
    rw [hdT]; decide
  have h12 : (pyEqStr (dictGet (fillBasic (setItem p OUT_BITDEPTH v)) TYPE) "1D" ||
      pyEqStr (dictGet (fillBasic (setItem p OUT_BITDEPTH v)) TYPE) "2D") = false := by
    rw [hdT]; decide
  unfold fillResult
  rw [fillType_id _ hmem]
  rw [fillDefaultType_skip _ (by rw [hdflt]; rfl)]
  rw [fillBitdepth_skip _ h12]
  rw [fillRange_frame OUT_RANGE _ OUT_BITDEPTH (by decide)]
  rw [fillRange_frame IN_RANGE _ OUT_BITDEPTH (by decide)]
  rw [fillCubeSize_frame _ OUT_BITDEPTH (by decide)]
  exact h1B

lemma is_range_str (s : String) : is_range (PyVal.str s) = false := by
  unfold is_range
  simp only [isIterable, Bool.not_true, Bool.false_eq_true, if_false]
  by_cases hl : pyLen (PyVal.str s) = 2
  · rw [if_neg (by simp [hl])]
    have hne : s.toList ≠ [] := by
      intro he
      have h0 : s.toList.length = 2 := hl
      rw [he] at h0
      simp at h0
    obtain ⟨c, hc⟩ := List.exists_mem_of_ne_nil s.toList hne
    have : ¬((pyElems (PyVal.str s)).all isNumber = true) := by
      simp only [pyElems, List.all_eq_true]
      intro hall
      have hx := hall _ (List.mem_map_of_mem _ hc)
      simp [isNumber] at hx
    exact Bool.eq_false_iff.mpr this
  · rw [if_pos (by simp [hl])]

/-- Claim C1: for every dict preset, complete_preset raises no exception;
the repaired preset is the state the call leaves in the caller's dict,
modelled as the first component. -/
theorem complete_preset_never_raises (p : Preset) :
    (complete_preset p).2 = Option.none := by
  unfold complete_preset
  rw [validate_fill_eq]

/-- Claim C2, counterexample: a well-formed default-type preset whose
output_bitdepth is 0 and cube_size is 999 — both far out of the documented
ranges — passes check_preset with no exception, and complete_preset leaves
both values untouched, refuting the claimed in-range invariant. -/
theorem check_accepts_out_of_range_default :
    (check_preset presetC2).2 = Option.none ∧
    dictGet presetC2 TYPE = PyVal.str "default" ∧
    presetC2 OUT_BITDEPTH = some (PyVal.int 0) ∧
    presetC2 CUBE_SIZE = some (PyVal.int 999) ∧
    (complete_preset presetC2).1 OUT_BITDEPTH = some (PyVal.int 0) ∧
    (complete_preset presetC2).1 CUBE_SIZE = some (PyVal.int 999) ∧
    (0 : Int) < BITDEPTH_MIN_VALUE ∧ CUBE_SIZE_MAX_VALUE < 999 :=
  ⟨rfl, rfl, rfl, rfl, rfl, rfl, by decide, by decide⟩

/-- Claim C2, amended: for a preset accepted by check_preset or produced by
complete_preset whose type is default, output_bitdepth and cube_size are
both present; their values are not range-checked for the default type. -/
theorem default_type_presence_only (p q : Preset)
    (h1 : (check_preset p).2 = Option.none)
    (h2 : dictGet p TYPE = PyVal.str "default")
    (h3 : dictGet (complete_preset q).1 TYPE = PyVal.str "default") :
    ((p OUT_BITDEPTH).isSome = true ∧ (p CUBE_SIZE).isSome = true) ∧
    (((complete_preset q).1 OUT_BITDEPTH).isSome = true ∧
     ((complete_preset q).1 CUBE_SIZE).isSome = true) := by
  constructor
  · have hscan : specFirstViolation p = Option.none := by
      unfold check_preset at h1
      rw [validate_raise_eq] at h1
      exact h1
    exact scan_none_default_facts p hscan (by rw [h2]; decide)
  · exact ok_default_both _ (complete_ok q) h3

/-- Witness for the amended C2 at the default preset. -/
theorem default_type_presence_only_witness :
    ((get_default_preset OUT_BITDEPTH).isSome = true ∧
     (get_default_preset CUBE_SIZE).isSome = true) ∧
    (((complete_preset get_default_preset).1 OUT_BITDEPTH).isSome = true ∧
     ((complete_preset get_default_preset).1 CUBE_SIZE).isSome = true) :=
  default_type_presence_only get_default_preset get_default_preset rfl rfl rfl

/-- Claim C3: the preset a fill-mode run leaves behind always passes
check_preset without an exception. -/
theorem complete_then_check_succeeds (p : Preset) :
    (check_preset (complete_preset p).1).2 = Option.none := by
  unfold check_preset
  rw [validate_of_ok _ (complete_ok p) RAISE_MODE]

/-- Claim C4: complete_preset is idempotent — a second fill-mode run
returns the repaired preset exactly unchanged. -/
theorem complete_preset_idempotent (p : Preset) :
    (complete_preset (complete_preset p).1).1 = (complete_preset p).1 := by
  have h := complete_ok p
  unfold complete_preset at h ⊢
  rw [validate_of_ok _ h FILL_MODE]

/-- Claim C5: check_preset never mutates its argument — both on success
and when a violation is raised, the dict is left exactly in its original
state, no field having been written before the error. -/
theorem check_preset_no_mutation (p : Preset) : (check_preset p).1 = p := by
  unfold check_preset
  rw [validate_raise_eq]

/-- Claim C6: the exception raised by check_preset is exactly the one of
the earliest violated rule in the fixed §4.3 order (basic-field presence
in attribute order, type validity, default completeness, 1D/2D bit depth,
3D cube size, input_range then output_range shape), and no exception is
raised when no rule is violated. -/
theorem check_preset_first_violation (p : Preset) :
    (check_preset p).2 = specFirstViolation p := by
  unfold check_preset
  rw [validate_raise_eq]

/-- Claim C7: the range predicate is total over the value universe and
returns true exactly on ordered length-2 sequences of numeric elements
(on this universe: lists of two ints or floats; strings, the other
sequence type, never hold numeric elements and are always rejected). -/
theorem is_range_iff_numeric_pair (v : PyVal) :
    is_range v = true ↔ specTwoNumericSeq v := by
  cases v with
  | int n => simp [is_range, isIterable, specTwoNumericSeq]
  | float q => simp [is_range, isIterable, specTwoNumericSeq]
  | none => simp [is_range, isIterable, specTwoNumericSeq]
  | str s =>
    rw [is_range_str]
    simp only [Bool.false_eq_true, false_iff]
    rintro (⟨xs, hx, _, _⟩ | ⟨t, ht, hlen, hall⟩)
    · cases hx
    · injection ht with h
      subst h
      have hne : s.toList ≠ [] := by
        intro he
        have h0 : s.toList.length = 2 := hlen
        rw [he] at h0
        simp at h0
      obtain ⟨c, hc⟩ := List.exists_mem_of_ne_nil s.toList hne
      have hx := hall _ (by
        simp only [pyElems]
        exact List.mem_map_of_mem _ hc)
      simp [isNumber] at hx
  | list xs =>
    constructor
    · intro h
      by_cases hl : xs.length = 2
      · refine Or.inl ⟨xs, rfl, hl, ?_⟩
        intro x hx
        simp only [is_range, isIterable, Bool.not_true, Bool.false_eq_true,
          if_false, pyLen, pyElems] at h
        rw [if_neg (by simp [hl])] at h
        exact (List.all_eq_true.mp h) x hx
      · exfalso
        simp only [is_range, isIterable, Bool.not_true, Bool.false_eq_true,
          if_false, pyLen] at h
        rw [if_pos (by simp [hl])] at h
        cases h
    · rintro (⟨ys, hy, hlen, hall⟩ | ⟨t, ht, _, _⟩)
      · injection hy with h
        subst h
        simp only [is_range, isIterable, Bool.not_true, Bool.false_eq_true,
          if_false, pyLen, pyElems]
        rw [if_neg (by simp [hlen])]
        exact List.all_eq_true.mpr hall
      · cases ht

/-- Claim C8: given a present type field of value t, is_3d_preset answers
true exactly for default or 3D, is_1d_or_2d_preset exactly for default,
1D or 2D, and any value outside the four enum values makes both answer
false; both are pure functions of the preset. -/
theorem classification_by_type (p : Preset) (t : PyVal) (h : p TYPE = some t) :
    is_3d_preset p = Except.ok (pyEqStr t "default" || pyEqStr t "3D") ∧
    is_1d_or_2d_preset p =
      Except.ok (pyEqStr t "default" || pyEqStr t "1D" || pyEqStr t "2D") ∧
    (pyInStrList t TYPE_CHOICE = false →
      is_3d_preset p = Except.ok false ∧ is_1d_or_2d_preset p = Except.ok false) := by
  have e3 : is_3d_preset p = Except.ok (pyEqStr t "default" || pyEqStr t "3D") := by
    simp [is_3d_preset, h]
  have e12 : is_1d_or_2d_preset p =
      Except.ok (pyEqStr t "default" || pyEqStr t "1D" || pyEqStr t "2D") := by
    simp [is_1d_or_2d_preset, h]
  refine ⟨e3, e12, fun hmem => ?_⟩
  have hfacts : pyEqStr t "default" = false ∧ pyEqStr t "1D" = false ∧
      pyEqStr t "2D" = false ∧ pyEqStr t "3D" = false := by
    simpa [pyInStrList, TYPE_CHOICE] using hmem
  rw [e3, e12, hfacts.1, hfacts.2.1, hfacts.2.2.1, hfacts.2.2.2]
  exact ⟨rfl, rfl⟩

/-- Witness for C8: a preset whose type is the integer 7 — an invalid
type value — makes both predicates return false. -/
theorem classification_by_type_witness :
    is_3d_preset presetBadType = Except.ok false ∧
    is_1d_or_2d_preset presetBadType = Except.ok false :=
  (classification_by_type presetBadType (PyVal.int 7) rfl).2.2 (by decide)

/-- Claim C9: a type-irrelevant field is never inspected or modified:
for a 1D or 2D preset, any stored cube_size value changes neither the
outcome nor the exception of check_preset, and complete_preset returns it
exactly unchanged; symmetrically for output_bitdepth on a 3D preset; and
neither entry point ever removes a key present in the input. -/
theorem type_irrelevant_fields (p q r : Preset) (v : PyVal) (k : String)
    (hp : p TYPE = some (PyVal.str "1D") ∨ p TYPE = some (PyVal.str "2D"))
    (hq : q TYPE = some (PyVal.str "3D"))
    (hr : (r k).isSome = true) :
    (check_preset (setItem p CUBE_SIZE v)).2 = (check_preset p).2 ∧
    (complete_preset (setItem p CUBE_SIZE v)).1 CUBE_SIZE = some v ∧
    (check_preset (setItem q OUT_BITDEPTH v)).2 = (check_preset q).2 ∧
    (complete_preset (setItem q OUT_BITDEPTH v)).1 OUT_BITDEPTH = some v ∧
    ((check_preset r).1 k).isSome = true ∧
    ((complete_preset r).1 k).isSome = true := by
  refine ⟨?_, ?_, ?_, ?_, ?_, ?_⟩
  · unfold check_preset
    rw [validate_raise_eq, validate_raise_eq]
    exact scan_setItem_cube p v hp
  · unfold complete_preset
    rw [validate_fill_eq]
    exact fill_cube_preserved p v hp
  · unfold check_preset
    rw [validate_raise_eq, validate_raise_eq]
    exact scan_setItem_bit q v hq
  · unfold complete_preset
    rw [validate_fill_eq]
    exact fill_bit_preserved q v hq
  · unfold check_preset
    exact validate_mono r RAISE_MODE k hr
  · unfold complete_preset
    exact validate_mono r FILL_MODE k hr

/-- Witness for C9 at concrete 1D and 3D presets with a junk value. -/
theorem type_irrelevant_fields_witness :
    (check_preset (setItem preset1D CUBE_SIZE (PyVal.int 999999))).2 =
      (check_preset preset1D).2 ∧
    (complete_preset (setItem preset1D CUBE_SIZE (PyVal.int 999999))).1 CUBE_SIZE =
      some (PyVal.int 999999) ∧
    (check_preset (setItem preset3D OUT_BITDEPTH (PyVal.int 999999))).2 =
      (check_preset preset3D).2 ∧
    (complete_preset (setItem preset3D OUT_BITDEPTH (PyVal.int 999999))).1 OUT_BITDEPTH =
      some (PyVal.int 999999) ∧
    ((check_preset preset1D).1 TITLE).isSome = true ∧
    ((complete_preset preset1D).1 TITLE).isSome = true :=
  type_irrelevant_fields preset1D preset3D preset1D (PyVal.int 999999) TITLE
    (Or.inl rfl) rfl rfl

/-- Claim C10: on a dict without a type key, both classification
predicates raise KeyError instead of returning a boolean. -/
theorem classification_requires_type_key (p : Preset)
    (h : p TYPE = Option.none) :
    is_3d_preset p = Except.error (LookupError.keyError TYPE) ∧
    is_1d_or_2d_preset p = Except.error (LookupError.keyError TYPE) := by
  constructor
  · simp [is_3d_preset, h]
  · simp [is_1d_or_2d_preset, h]

/-- Witness for C10 at the empty dict. -/
theorem classification_requires_type_key_witness :
    is_3d_preset emptyPreset = Except.error (LookupError.keyError TYPE) ∧
    is_1d_or_2d_preset emptyPreset = Except.error (LookupError.keyError TYPE) :=
  classification_requires_type_key emptyPreset rfl
